import Mathlib

/-!
Verification of the ASTROPATH pothole-detection pipeline.

This file gives a shallow embedding of the decision logic of the
repository (severity estimation, the location-resolution fallback
chains, GPS fix caching, pixel-to-ground projection, per-frame
processing, heatmap weighting and repair-status updates) and proves or
refutes the behavioural claims of the specification against it.

Conventions of the embedding:
* Python floats are modelled as exact rationals; all numeric literals
  appearing in the code (thresholds, default coordinates) are exact.
* A Python value that may be None is an `Option`; Python truthiness on
  a number (`if lat and lon`) is tested with `pyTruthy`.
* Partial external devices (serial GPS, network geolocation, the ML
  classifier) are parameters of `Option` type: `none` models the source
  being absent, failing, or raising, which the code catches.
-/

namespace Astropath

/-! ## Configuration constants (config.py) -/

/-- config.py: SEVERITY_THRESHOLDS["area_ratio_low"] = 0.01. -/
def severityAreaLow : ℚ := 1/100

/-- config.py: SEVERITY_THRESHOLDS["area_ratio_medium"] = 0.05. -/
def severityAreaMedium : ℚ := 5/100

/-- config.py: GPS_MIN_QUALITY = 1. -/
def gpsMinQuality : ℤ := 1

/-- config.py: GPS_MIN_SATS = 4. -/
def gpsMinSats : ℤ := 4

/-- app.py get_location default fallback latitude (Solapur, India). -/
def defaultLat : ℚ := 176599/10000

/-- app.py get_location default fallback longitude (Solapur, India). -/
def defaultLon : ℚ := 759064/10000

/-! ## Python helpers -/

/-- Python truthiness of a possibly-None float: `None` and `0.0` are falsy. -/
def pyTruthy : Option ℚ → Bool
  | none => false
  | some v => v ≠ 0

/-- Python `x or d` on a possibly-None float `x`: yields `d` when `x` is
None or `0.0`, otherwise the value of `x`. -/
def pyOr (x : Option ℚ) (d : ℚ) : ℚ :=
  match x with
  | none => d
  | some v => if v = 0 then d else v

theorem pyOr_some_zero (v : ℚ) : pyOr (some v) 0 = v := by
  unfold pyOr
  by_cases h : v = 0 <;> simp [h]

/-! ## Severity estimation (src/detect_edge.py, SeverityEstimator.estimate)

The classifier is `none` when no model is loaded; `some none` when a
model is loaded but its inference raises (caught by the code, leaving
the default confidence 0.5); `some (some c)` when inference returns
confidence `c`.  The box and frame are described by their pixel
geometry; the crop `frame[y:y+h, x:x+w]` of an `H×W` frame has
`(min (y+h) H - min y H) * (min (x+w) W - min x W)` pixels per channel,
which is numpy slicing behaviour for non-negative indices. -/

def estimate (classifier : Option (Option ℚ)) (x y w h H W : ℕ) : String × ℚ :=
  let cropRows : ℕ := min (y + h) H - min y H
  let cropCols : ℕ := min (x + w) W - min x W
  if cropRows * cropCols = 0 then ("Unknown", 1/2)
  else
    let areaFrac : ℚ := (w * h : ℕ) / ((H * W : ℕ) : ℚ)
    let classifierConf : ℚ :=
      match classifier with
      | some (some c) => c
      | some none => 1/2
      | none => 1/2
    let band : String × ℚ :=
      if areaFrac < severityAreaLow then ("Low", 3/10)
      else if areaFrac < severityAreaMedium then ("Medium", 6/10)
      else ("High", 9/10)
    let score : ℚ :=
      if classifier.isSome then (band.2 + classifierConf) / 2 else band.2
    (band.1, score)

/-! ## Heatmap data (src/database.py, DetectionDatabase.get_heatmap_data) -/

/-- A stored detection row, restricted to the columns the heatmap query
selects (latitude, longitude, severity). -/
structure DbRow where
  latitude : ℚ
  longitude : ℚ
  severity : String
  deriving DecidableEq, Repr

/-- A heatmap entry as built by get_heatmap_data. -/
structure HeatPoint where
  latitude : ℚ
  longitude : ℚ
  severity : String
  weight : ℕ
  deriving DecidableEq, Repr

/-- The severity_weights dict lookup with default 1: Low maps to 1,
Medium to 5, High to 10, anything else to 1. -/
def severityWeight (s : String) : ℕ :=
  if s = "Low" then 1 else if s = "Medium" then 5 else if s = "High" then 10 else 1

/-- get_heatmap_data: the rows are those returned by the query
(most-recent-first, `LIMIT limit`), each mapped to an entry carrying its
severity weight. -/
def get_heatmap_data (limit : ℕ) (rows : List DbRow) : List HeatPoint :=
  (rows.take limit).map fun r =>
    { latitude := r.latitude
      longitude := r.longitude
      severity := r.severity
      weight := severityWeight r.severity }

/-! ## Repair-status updates (src/database.py, update_repair_status) -/

/-- A detections row, restricted to the columns the UPDATE touches. -/
structure DetRow where
  id : ℕ
  repair_status : String
  repair_date : Option String
  notes : String
  updated_at : String
  deriving DecidableEq, Repr

/-- update_repair_status.  `dbError = true` models the sqlite call
raising (caught, returning False); otherwise the UPDATE runs over every
row whose id matches (possibly none) and the function returns True.
`now` stands for datetime.now().isoformat() / CURRENT_TIMESTAMP. -/
def update_repair_status (dbError : Bool) (now : String) (rows : List DetRow)
    (detection_id : ℕ) (status : String) (notes : String) : List DetRow × Bool :=
  if dbError then (rows, false)
  else
    let repairDate : Option String := if status = "pending" then none else some now
    (rows.map fun r =>
      if r.id = detection_id then
        { r with repair_status := status, repair_date := repairDate,
                 notes := notes, updated_at := now }
      else r, true)

/-! ## GPS handler (src/gps_handler.py, GPSHandler) -/

/-- Mutable state of a GPSHandler relevant to coordinate acquisition. -/
structure GpsState where
  connected : Bool
  lastValid : Option (ℚ × ℚ × String)
  last_quality : ℤ
  no_fix_count : ℕ
  deriving DecidableEq, Repr

/-- A successfully parsed NMEA position sentence, after pynmea2 parsing
and hemisphere sign handling (unparsable or non-position lines never
reach the acceptance test and are omitted from the list of the cycle). -/
structure Sentence where
  quality : ℤ
  num_sats : ℤ
  latitude : ℚ
  longitude : ℚ
  ts : String
  deriving DecidableEq, Repr

/-- The read loop of get_coordinates: scan up to max_retries sentences
and return the first one accepted (`quality > 0 and num_sats >= min_sats`). -/
def firstValidFix (minSats : ℤ) : List Sentence → Option Sentence
  | [] => none
  | s :: rest =>
    if 0 < s.quality ∧ minSats ≤ s.num_sats then some s else firstValidFix minSats rest

/-- GPSHandler.get_coordinates: result is
(latitude, longitude, timestamp, quality), each of the first three None
when unavailable.  On a fresh accepted fix the cache is overwritten and
the no-fix counter reset; with no fix this cycle the cached coordinates
are returned (with the cached quality) when present, else all-None with
quality 0. -/
def get_coordinates (minSats : ℤ) (st : GpsState) (cycle : List Sentence) :
    GpsState × (Option ℚ × Option ℚ × Option String × ℤ) :=
  if st.connected = false then
    match st.lastValid with
    | some (la, lo, t) => (st, (some la, some lo, some t, st.last_quality))
    | none => (st, (none, none, none, 0))
  else
    match firstValidFix minSats cycle with
    | some s =>
      ({ st with lastValid := some (s.latitude, s.longitude, s.ts),
                 last_quality := s.quality, no_fix_count := 0 },
       (some s.latitude, some s.longitude, some s.ts, s.quality))
    | none =>
      let st' := { st with no_fix_count := st.no_fix_count + 1 }
      match st.lastValid with
      | some (la, lo, t) => (st', (some la, some lo, some t, st.last_quality))
      | none => (st', (none, none, none, 0))

/-! ## IP geolocation fallback (src/utils.py, get_geolocation) -/

/-- utils.get_geolocation: gpsd (when USE_GPS_MODULE) then geocoder.ip
(when FALLBACK_GEOLOCATION) then the fixed pair (0.0, 0.0).  `gpsd` and
`ip` are `none` when the respective lookup raises or yields nothing. -/
def get_geolocation (useGpsModule : Bool) (gpsd : Option (ℚ × ℚ))
    (fallbackGeo : Bool) (ip : Option (ℚ × ℚ)) : ℚ × ℚ :=
  match useGpsModule, gpsd with
  | true, some p => p
  | _, _ =>
    match fallbackGeo, ip with
    | true, some p => p
    | _, _ => (0, 0)

/-! ## Resolver of app.py (get_location) -/

/-- app.get_location.  `gpsRead` is `none` when the handler is absent,
not connected, or get_coordinates raises; otherwise it carries the
(lat, lon) options of the read.  `ipRes` is `none` when IP geolocation
is not ok or raises.  `ipEnabled` is
`GPS_FALLBACK_TO_IP or FALLBACK_GEOLOCATION`. -/
def appGetLocation (gpsRead : Option (Option ℚ × Option ℚ))
    (ipEnabled : Bool) (ipRes : Option (ℚ × ℚ)) : ℚ × ℚ × String :=
  match gpsRead with
  | some (glat, glon) =>
    if pyTruthy glat ∧ pyTruthy glon then
      (glat.getD 0, glon.getD 0, "gps")
    else
      appGetLocationRest glat glon ipEnabled ipRes
  | none => appGetLocationRest none none ipEnabled ipRes
where
  /-- The IP-fallback and default tail of get_location, entered with the
  lat/lon variables as left by the GPS branch. -/
  appGetLocationRest (lat lon : Option ℚ) (ipEnabled : Bool)
      (ipRes : Option (ℚ × ℚ)) : ℚ × ℚ × String :=
    let afterIp : Option ℚ × Option ℚ × String :=
      match ipEnabled, ipRes with
      | true, some (a, b) => (some a, some b, "ip")
      | _, _ => (lat, lon, "unknown")
    match afterIp with
    | (some a, some b, src) => (a, b, src)
    | _ => (defaultLat, defaultLon, "default")

/-! ## Resolver of the edge pipeline (src/detect_edge.py,
EdgeDetectionPipeline.run, the per-detection location block) -/

/-- Flight-controller telemetry as returned by
DroneController.get_telemetry. -/
structure Telemetry where
  latitude : ℚ
  longitude : ℚ
  altitude : ℚ
  heading : ℚ
  deriving DecidableEq, Repr

/-- The 4-tuple returned by GPSHandler.get_coordinates, as consumed by
the edge pipeline. -/
structure GpsRead where
  lat : Option ℚ
  lon : Option ℚ
  ts : Option String
  quality : ℤ
  deriving DecidableEq, Repr

/-- The location fields of the payload the edge pipeline builds for a
saved detection: numeric latitude/longitude (after `chosen or 0.0`),
the location_source tag when any source supplied one, and the
gps_quality metadata when set. -/
structure EdgeLoc where
  latitude : ℚ
  longitude : ℚ
  location_source : Option String
  gps_quality : Option ℤ
  deriving DecidableEq, Repr

/-- Intermediate chosen coordinate and metadata of the edge chain. -/
structure Chosen where
  lat : Option ℚ
  lon : Option ℚ
  src : Option String
  quality : Option ℤ
  deriving DecidableEq, Repr

/-- The location block of EdgeDetectionPipeline.run.  `drone` is `none`
when self.drone is None, `gpsRead` is `none` when self.gps is None,
`geo` is the value get_geolocation would return, `minQuality` is
config.GPS_MIN_QUALITY. -/
def edgeResolve (drone : Option Telemetry) (gpsRead : Option GpsRead)
    (fallbackGeo : Bool) (geo : ℚ × ℚ) (minQuality : ℤ) : EdgeLoc :=
  let s1 : Chosen :=
    match drone with
    | some t =>
      if 1 < |t.latitude| then
        ⟨some t.latitude, some t.longitude, some "flight_controller", some 2⟩
      else ⟨none, none, none, none⟩
    | none => ⟨none, none, none, none⟩
  let s2 : Chosen :=
    if s1.lat = none then
      match gpsRead with
      | some r =>
        match r.lat with
        | some glat =>
          if minQuality ≤ r.quality then
            ⟨some glat, r.lon, some "local_gps_module", some r.quality⟩
          else s1
        | none => s1
      | none => s1
    else s1
  let s3 : Chosen :=
    if s2.lat = none ∧ fallbackGeo then
      ⟨some geo.1, some geo.2, some "ip_geolocation", none⟩
    else s2
  ⟨pyOr s3.lat 0, pyOr s3.lon 0, s3.src, s3.quality⟩

/-! ## Pixel-to-ground projection (src/drone_controller.py,
DroneController.pixel_to_ground_coords)

The math library (tan, sin, cos, radians conversion) is an external
interface of the computation; it is abstracted as a record of rational
functions, so every theorem below holds for the real functions as well
as for any other interpretation. -/

structure TrigModel where
  tanQ : ℚ → ℚ
  sinQ : ℚ → ℚ
  cosQ : ℚ → ℚ
  radiansQ : ℚ → ℚ

/-- pixel_to_ground_coords: ground coverage from altitude and FOV,
pixel normalised to [-0.5, 0.5], scaled to a metre offset, rotated by
heading, converted to degree offsets with the equirectangular
approximation, and added to the vehicle position. -/
def pixel_to_ground_coords (m : TrigModel) (tel : Telemetry)
    (fovHdeg fovVdeg : ℚ) (px py fw fh : ℚ) : ℚ × ℚ :=
  let altitude := tel.altitude
  let heading := m.radiansQ tel.heading
  let fovH := m.radiansQ fovHdeg
  let fovV := m.radiansQ fovVdeg
  let groundWidth := 2 * altitude * m.tanQ (fovH / 2)
  let groundHeight := 2 * altitude * m.tanQ (fovV / 2)
  let normX := px / fw - 1/2
  let normY := py / fh - 1/2
  let offsetX := normX * groundWidth
  let offsetY := normY * groundHeight
  let rotatedX := offsetX * m.cosQ heading - offsetY * m.sinQ heading
  let rotatedY := offsetX * m.sinQ heading + offsetY * m.cosQ heading
  let latOffset := rotatedY / 111320
  let lonOffset := rotatedX / (111320 * m.cosQ (m.radiansQ tel.latitude))
  (tel.latitude + latOffset, tel.longitude + lonOffset)

/-! ## Greedy non-maximum suppression

Modelled from the spec: the NMS step itself is performed by
cv2.dnn.NMSBoxes, an OpenCV routine whose implementation is not part of
this repository; the spec describes it as standard greedy NMS — sort
candidates by confidence descending and suppress any box whose IoU with
a previously kept box exceeds the NMS threshold. -/

structure NBox where
  x : ℚ
  y : ℚ
  w : ℚ
  h : ℚ
  deriving DecidableEq, Repr

structure NDet where
  box : NBox
  conf : ℚ
  deriving DecidableEq, Repr

/-- Intersection area of two axis-aligned boxes. -/
def interArea (a b : NBox) : ℚ :=
  max (min (a.x + a.w) (b.x + b.w) - max a.x b.x) 0 *
    max (min (a.y + a.h) (b.y + b.h) - max a.y b.y) 0

/-- Intersection over union (0 when the union is degenerate, since
rational division by zero is zero). -/
def iou (a b : NBox) : ℚ :=
  interArea a b / (a.w * a.h + b.w * b.h - interArea a b)

/-- Confidence-descending order used for the NMS sort. -/
def confGE (a b : NDet) : Prop := b.conf ≤ a.conf

instance : DecidableRel confGE := fun a b =>
  inferInstanceAs (Decidable (b.conf ≤ a.conf))

instance : IsTotal NDet confGE := ⟨fun a b => le_total b.conf a.conf⟩

instance : IsTrans NDet confGE := ⟨fun _ _ _ h h2 => le_trans h2 h⟩

/-- The greedy suppression pass over a confidence-sorted candidate
list: a candidate is dropped when its IoU with some already-kept box
exceeds the threshold, else kept. -/
def nmsGo (thr : ℚ) : List NDet → List NDet → List NDet
  | _, [] => []
  | kept, d :: rest =>
    if kept.any fun k => decide (thr < iou k.box d.box) then nmsGo thr kept rest
    else d :: nmsGo thr (d :: kept) rest

/-- Greedy NMS: sort by confidence descending (a stable sort, as the
sort of Python is), then run the greedy suppression pass. -/
def nms (thr : ℚ) (dets : List NDet) : List NDet :=
  nmsGo thr [] (dets.insertionSort confGE)

/-! ## Per-frame processing (src/detect_edge.py,
EdgeDetectionPipeline.process_frame)

The detector, the severity estimator and the frame annotator are
parameters, so the theorems quantify over their behaviour; the frame
type itself is abstract. -/

/-- Pipeline counters mutated by process_frame. -/
structure PipeState where
  frame_count : ℕ
  detection_count : ℕ
  deriving DecidableEq, Repr

/-- A raw detector output entry. -/
structure RawDet where
  x : ℕ
  y : ℕ
  w : ℕ
  h : ℕ
  confidence : ℚ
  class_name : String
  deriving DecidableEq, Repr

/-- EdgeDetectionPipeline.process_frame: increment the frame counter;
when `frame_count % DETECTION_FRAME_SKIP != 0 and
DETECTION_FRAME_SKIP > 1` return the frame unannotated with no
detections; otherwise detect, keep detections with confidence at least
0.6, attach severities, count them, and annotate. -/
def process_frame {Frame : Type} (frameSkip : ℕ)
    (detector : Frame → List RawDet)
    (sev : Frame → RawDet → String × ℚ)
    (annotate : Frame → List (RawDet × String × ℚ) → Frame)
    (st : PipeState) (frame : Frame) :
    PipeState × Frame × List (RawDet × String × ℚ) :=
  let st1 : PipeState := { st with frame_count := st.frame_count + 1 }
  if st1.frame_count % frameSkip ≠ 0 ∧ 1 < frameSkip then (st1, frame, [])
  else
    let dets := detector frame
    let processed := (dets.filter fun d => ¬ d.confidence < 6/10).map fun d =>
      (d, (sev frame d).1, (sev frame d).2)
    let st2 : PipeState :=
      { st1 with detection_count := st1.detection_count + processed.length }
    (st2, annotate frame processed, processed)

/-! # Theorems for the claims -/

/-- C9: get_heatmap_data returns one entry per stored record (up to the
limit), the weight of each entry is exactly 1 for severity Low, 5 for
Medium and 10 for High (1 otherwise), and records with severities
[Low, Medium, High] yield weights [1, 5, 10]. -/
theorem c9_heatmap_weights (limit : ℕ) (rows : List DbRow) :
    (get_heatmap_data limit rows).length = min limit rows.length
    ∧ (∀ p ∈ get_heatmap_data limit rows,
        p.weight = if p.severity = "Low" then 1
          else if p.severity = "Medium" then 5
          else if p.severity = "High" then 10 else 1)
    ∧ (get_heatmap_data 500 [⟨1, 2, "Low"⟩, ⟨3, 4, "Medium"⟩, ⟨5, 6, "High"⟩]).map
        HeatPoint.weight = [1, 5, 10] := by
  refine ⟨by simp [get_heatmap_data], ?_, by rfl⟩
  intro p hp
  simp only [get_heatmap_data, List.mem_map] at hp
  obtain ⟨r, _, rfl⟩ := hp
  simp [severityWeight]

/-- C9 witness: the Medium record of a concrete three-record store is
mapped to an entry of weight 5. -/
theorem c9_heatmap_weights_witness :
    (⟨3, 4, "Medium", 5⟩ : HeatPoint) ∈
      get_heatmap_data 500 [⟨1, 2, "Low"⟩, ⟨3, 4, "Medium"⟩, ⟨5, 6, "High"⟩]
    ∧ (⟨3, 4, "Medium", 5⟩ : HeatPoint).weight =
        (if ("Medium" : String) = "Low" then 1
          else if ("Medium" : String) = "Medium" then 5
          else if ("Medium" : String) = "High" then 10 else 1) :=
  ⟨by simp [get_heatmap_data, severityWeight],
   (c9_heatmap_weights 500 [⟨1, 2, "Low"⟩, ⟨3, 4, "Medium"⟩, ⟨5, 6, "High"⟩]).2.1
     ⟨3, 4, "Medium", 5⟩ (by simp [get_heatmap_data, severityWeight])⟩

/-- C10: update_repair_status returns True whenever the UPDATE executes
without a database error — in particular when no row has the given id,
in which case the table is unchanged and True is still returned — and
returns False exactly when the database raises. -/
theorem c10_update_repair_status (now : String) (rows : List DetRow)
    (detection_id : ℕ) (status notes : String) :
    (update_repair_status false now rows detection_id status notes).2 = true
    ∧ ((∀ r ∈ rows, r.id ≠ detection_id) →
        update_repair_status false now rows detection_id status notes = (rows, true))
    ∧ (update_repair_status true now rows detection_id status notes).2 = false := by
  refine ⟨by simp [update_repair_status], ?_, by simp [update_repair_status]⟩
  intro hmiss
  simp only [update_repair_status, Bool.false_eq_true, if_false]
  refine Prod.ext ?_ rfl
  show rows.map _ = rows
  conv_rhs => rw [← List.map_id rows]
  exact List.map_congr_left fun r hr => by simp [hmiss r hr]

/-- C10 witness: updating a missing id on a concrete one-row table
leaves the table unchanged and still returns True. -/
theorem c10_update_repair_status_witness :
    (∀ r ∈ [(⟨1, "pending", none, "", "t"⟩ : DetRow)], r.id ≠ 99)
    ∧ update_repair_status false "now" [⟨1, "pending", none, "", "t"⟩] 99 "completed" "n"
        = ([⟨1, "pending", none, "", "t"⟩], true) :=
  ⟨by decide,
   (c10_update_repair_status "now" [⟨1, "pending", none, "", "t"⟩] 99 "completed" "n").2.1
     (by decide)⟩

/-- C8: every call of process_frame increments the frame counter, and
when the incremented counter is not a multiple of the frame-skip (with
frame-skip greater than 1) the original frame is returned with an
empty detection list and unchanged detection counter, independently of
the detector, severity estimator and annotator. -/
theorem c8_frame_skip {Frame : Type} (frameSkip : ℕ)
    (detector : Frame → List RawDet) (sev : Frame → RawDet → String × ℚ)
    (annotate : Frame → List (RawDet × String × ℚ) → Frame)
    (st : PipeState) (frame : Frame) :
    (process_frame frameSkip detector sev annotate st frame).1.frame_count
        = st.frame_count + 1
    ∧ (1 < frameSkip → (st.frame_count + 1) % frameSkip ≠ 0 →
        process_frame frameSkip detector sev annotate st frame =
          ({ st with frame_count := st.frame_count + 1 }, frame, [])) := by
  constructor
  · simp only [process_frame]
    split <;> rfl
  · intro h1 h2
    simp only [process_frame, if_pos (And.intro h2 h1)]

/-- C8 witness: with frame-skip 2 and a fresh pipeline state, the first
frame (counter becomes 1, and 1 mod 2 is nonzero) is passed through
unannotated with no detections. -/
theorem c8_frame_skip_witness :
    1 < 2 ∧ (0 + 1) % 2 ≠ 0
    ∧ process_frame 2 (fun _ : ℕ => [⟨1, 2, 3, 4, 9/10, "pothole"⟩])
        (fun _ _ => ("High", 9/10)) (fun f _ => f + 100) ⟨0, 0⟩ 7 =
        (⟨0 + 1, 0⟩, 7, []) :=
  ⟨by decide, by decide,
   (c8_frame_skip 2 (fun _ : ℕ => [⟨1, 2, 3, 4, 9/10, "pothole"⟩])
      (fun _ _ => ("High", 9/10)) (fun f _ => f + 100) ⟨0, 0⟩ 7).2
     (by decide) (by decide)⟩

/-- C3: when flight-controller telemetry carries a latitude of absolute
value above one degree, the edge resolver attaches exactly that
telemetry coordinate with tag flight_controller, for every state of the
local GPS and IP sources (which are therefore not consulted). -/
theorem c3_flight_controller_priority (t : Telemetry) (gpsRead : Option GpsRead)
    (fallbackGeo : Bool) (geo : ℚ × ℚ) (minQuality : ℤ)
    (hlat : 1 < |t.latitude|) :
    edgeResolve (some t) gpsRead fallbackGeo geo minQuality =
      ⟨t.latitude, t.longitude, some "flight_controller", some 2⟩ := by
  simp only [edgeResolve, if_pos hlat]
  simp [pyOr_some_zero]

/-- C3 witness: telemetry at (17, 75) wins over an available local GPS
fix and enabled IP fallback. -/
theorem c3_flight_controller_priority_witness :
    1 < |(17 : ℚ)|
    ∧ edgeResolve (some ⟨17, 75, 50, 0⟩)
        (some ⟨some 10, some 20, some "t", 5⟩) true (1, 2) 1 =
        ⟨17, 75, some "flight_controller", some 2⟩ :=
  ⟨by norm_num,
   c3_flight_controller_priority ⟨17, 75, 50, 0⟩
     (some ⟨some 10, some 20, some "t", 5⟩) true (1, 2) 1 (by norm_num)⟩

/-- C1 counterexample: with every source down (no drone, no GPS handler,
gpsd and IP geolocation both failing), the edge pipeline resolver does
not terminate at a default-tagged static coordinate: it returns the
get_geolocation fallback (0, 0) tagged ip_geolocation. -/
theorem c1_counterexample :
    edgeResolve none none true (get_geolocation false none true none) gpsMinQuality =
      ⟨0, 0, some "ip_geolocation", none⟩
    ∧ (⟨0, 0, some "ip_geolocation", none⟩ : EdgeLoc).location_source ≠ some "default"
    ∧ (0 : ℚ) ≠ defaultLat := by
  refine ⟨by rfl, by simp, ?_⟩
  norm_num [defaultLat]

/-- C1 amended: location resolution is total — both resolvers always
produce a numeric coordinate.  get_location of app.py ends at the
static default (17.6599, 75.9064) with tag default once GPS and IP are
exhausted; the chain of the edge pipeline instead ends at the
get_geolocation fallback (0, 0) tagged ip_geolocation when IP fallback
is enabled, and at untagged (0, 0) when it is disabled. -/
theorem c1_resolution_total :
    (∀ ipEnabled : Bool,
      appGetLocation none ipEnabled none = (defaultLat, defaultLon, "default"))
    ∧ (∀ ipEnabled : Bool,
      appGetLocation (some (none, none)) ipEnabled none
        = (defaultLat, defaultLon, "default"))
    ∧ (∀ useGpsModule fallbackGeo : Bool,
      get_geolocation useGpsModule none fallbackGeo none = (0, 0))
    ∧ (∀ (geo : ℚ × ℚ) (minQuality : ℤ),
      edgeResolve none none true geo minQuality
        = ⟨geo.1, geo.2, some "ip_geolocation", none⟩)
    ∧ (∀ (geo : ℚ × ℚ) (minQuality : ℤ),
      edgeResolve none none false geo minQuality = ⟨0, 0, none, none⟩) := by
  refine ⟨?_, ?_, ?_, ?_, ?_⟩
  · intro ipE
    cases ipE <;> rfl
  · intro ipE
    cases ipE <;> rfl
  · intro u f
    cases u <;> cases f <;> rfl
  · intro geo minQ
    simp [edgeResolve, pyOr_some_zero]
  · intro geo minQ
    rfl

/-- C4: projecting the image-centre pixel through
pixel_to_ground_coords at positive altitude and heading zero returns
exactly the telemetry coordinate of the vehicle, for every
interpretation of the trigonometric functions and every positive frame
size. -/
theorem c4_center_projection_roundtrip (m : TrigModel) (tel : Telemetry)
    (fovHdeg fovVdeg fw fh : ℚ)
    (halt : 0 < tel.altitude) (hheading : tel.heading = 0)
    (hfw : 0 < fw) (hfh : 0 < fh) :
    pixel_to_ground_coords m tel fovHdeg fovVdeg (fw/2) (fh/2) fw fh =
      (tel.latitude, tel.longitude) := by
  have hfw' : fw ≠ 0 := ne_of_gt hfw
  have hfh' : fh ≠ 0 := ne_of_gt hfh
  have h1 : fw / 2 / fw = 2⁻¹ := by
    field_simp
    try ring
  have h2 : fh / 2 / fh = 2⁻¹ := by
    field_simp
    try ring
  simp [pixel_to_ground_coords, h1, h2]

/-- C4 witness: with the identity interpretation of the trigonometric
interface, telemetry (17, 75) at altitude 50 and heading 0, and a 4×2
frame, the centre pixel (2, 1) projects back to (17, 75). -/
theorem c4_center_projection_roundtrip_witness :
    (0 : ℚ) < 50 ∧ (0 : ℚ) = 0 ∧ (0 : ℚ) < 4 ∧ (0 : ℚ) < 2
    ∧ pixel_to_ground_coords ⟨id, id, id, id⟩ ⟨17, 75, 50, 0⟩ 90 60 (4/2) (2/2) 4 2 =
        (17, 75) :=
  ⟨by norm_num, rfl, by norm_num, by norm_num,
   c4_center_projection_roundtrip ⟨id, id, id, id⟩ ⟨17, 75, 50, 0⟩ 90 60 4 2
     (by norm_num) rfl (by norm_num) (by norm_num)⟩

/-- The area fraction a `w × h` box occupies in an `H × W` frame, as
computed by the estimator (`(w*h)/(frame_shape[0]*frame_shape[1])`). -/
def areaFrac (w h H W : ℕ) : ℚ := ((w * h : ℕ) : ℚ) / ((H * W : ℕ) : ℚ)

/-- For an in-bounds box with positive width and height the crop is
nonempty and estimate takes the threshold branch: its label is
determined by the area fraction alone and its score is the band value,
averaged with the classifier confidence when a classifier is loaded. -/
theorem estimate_of_inBounds (classifier : Option (Option ℚ)) (x y w h H W : ℕ)
    (hxw : x + w ≤ W) (hyh : y + h ≤ H) (hw : 0 < w) (hh : 0 < h) :
    estimate classifier x y w h H W =
      (let band : String × ℚ :=
        if areaFrac w h H W < severityAreaLow then ("Low", 3/10)
        else if areaFrac w h H W < severityAreaMedium then ("Medium", 6/10)
        else ("High", 9/10)
       let conf : ℚ := match classifier with
        | some (some c) => c
        | some none => 1/2
        | none => 1/2
       (band.1, if classifier.isSome then (band.2 + conf) / 2 else band.2)) := by
  have hyH : min (y + h) H = y + h := min_eq_left hyh
  have hy : min y H = y := min_eq_left (le_trans (Nat.le_add_right y h) hyh)
  have hxW : min (x + w) W = x + w := min_eq_left hxw
  have hx : min x W = x := min_eq_left (le_trans (Nat.le_add_right x w) hxw)
  have hcrop : (min (y + h) H - min y H) * (min (x + w) W - min x W) ≠ 0 := by
    rw [hyH, hy, hxW, hx]
    have : y + h - y = h := by omega
    have hx2 : x + w - x = w := by omega
    rw [this, hx2]
    positivity
  simp only [estimate, areaFrac, if_neg hcrop]

/-- For an in-bounds positive box the severity label is the threshold
function of the area fraction, whatever the classifier does. -/
theorem estimate_fst_of_inBounds (classifier : Option (Option ℚ)) (x y w h H W : ℕ)
    (hxw : x + w ≤ W) (hyh : y + h ≤ H) (hw : 0 < w) (hh : 0 < h) :
    (estimate classifier x y w h H W).1 =
      if areaFrac w h H W < severityAreaLow then "Low"
      else if areaFrac w h H W < severityAreaMedium then "Medium" else "High" := by
  rw [estimate_of_inBounds classifier x y w h H W hxw hyh hw hh]
  split_ifs <;> rfl

/-- C2: for every in-bounds detection box of positive area, the
severity label of the estimator is a pure function of the area
fraction: Low iff it is below 0.01, Medium iff it lies in [0.01, 0.05),
High iff it is at least 0.05; the loaded classifier never changes the
label; and the boundary box 50 × 50 in a 500 × 500 frame (fraction
exactly 0.01) is labelled Medium. -/
theorem c2_severity_thresholds (classifier : Option (Option ℚ)) (x y w h H W : ℕ)
    (hxw : x + w ≤ W) (hyh : y + h ≤ H) (hw : 0 < w) (hh : 0 < h) :
    ((estimate classifier x y w h H W).1 = "Low" ↔ areaFrac w h H W < 1/100)
    ∧ ((estimate classifier x y w h H W).1 = "Medium" ↔
        1/100 ≤ areaFrac w h H W ∧ areaFrac w h H W < 5/100)
    ∧ ((estimate classifier x y w h H W).1 = "High" ↔ 5/100 ≤ areaFrac w h H W)
    ∧ (estimate classifier x y w h H W).1 = (estimate none x y w h H W).1
    ∧ (estimate classifier 10 10 50 50 500 500).1 = "Medium" := by
  have e1 := estimate_fst_of_inBounds classifier x y w h H W hxw hyh hw hh
  have e2 := estimate_fst_of_inBounds none x y w h H W hxw hyh hw hh
  have e3 := estimate_fst_of_inBounds classifier 10 10 50 50 500 500
    (by norm_num) (by norm_num) (by norm_num) (by norm_num)
  have harea : areaFrac 50 50 500 500 = 1/100 := by
    norm_num [areaFrac]
  refine ⟨?_, ?_, ?_, by rw [e1, e2], ?_⟩
  · rw [e1]
    simp only [severityAreaLow, severityAreaMedium]
    split_ifs with h1 h2
    · exact iff_of_true rfl h1
    · exact iff_of_false (by decide) (by intro hc; exact absurd hc h1)
    · exact iff_of_false (by decide) (by intro hc; exact absurd hc h1)
  · rw [e1]
    simp only [severityAreaLow, severityAreaMedium]
    split_ifs with h1 h2
    · exact iff_of_false (by decide) (by rintro ⟨ha, -⟩; linarith)
    · exact iff_of_true rfl ⟨not_lt.mp h1, h2⟩
    · exact iff_of_false (by decide) (by rintro ⟨-, hb⟩; exact h2 hb)
  · rw [e1]
    simp only [severityAreaLow, severityAreaMedium]
    split_ifs with h1 h2
    · exact iff_of_false (by decide) (by intro hc; linarith)
    · exact iff_of_false (by decide) (by intro hc; linarith)
    · exact iff_of_true rfl (not_lt.mp h2)
  · rw [e3, harea]
    norm_num [severityAreaLow, severityAreaMedium]

/-- C2 witness: the boundary box (x=10, y=10, w=50, h=50) in a 500×500
frame, with no classifier loaded, is labelled Medium and its area
fraction satisfies the Medium band inequalities. -/
theorem c2_severity_thresholds_witness :
    (10 + 50 ≤ 500 ∧ 10 + 50 ≤ 500 ∧ 0 < 50 ∧ 0 < 50)
    ∧ ((estimate none 10 10 50 50 500 500).1 = "Medium" ↔
        1/100 ≤ areaFrac 50 50 500 500 ∧ areaFrac 50 50 500 500 < 5/100) :=
  ⟨by omega,
   (c2_severity_thresholds none 10 10 50 50 500 500
     (by omega) (by omega) (by omega) (by omega)).2.1⟩

/-- C6 counterexample: with a loaded classifier whose inference raises,
a Low-band in-bounds box yields score (0.3 + 0.5)/2 = 0.4, not the
heuristic-only 0.3 the claim states. -/
theorem c6_counterexample :
    estimate (some none) 0 0 10 10 500 500 = ("Low", 2/5)
    ∧ ((2 : ℚ)/5 ≠ 3/10) := by
  constructor
  · rw [estimate_of_inBounds (some none) 0 0 10 10 500 500
      (by norm_num) (by norm_num) (by norm_num) (by norm_num)]
    norm_num [areaFrac, severityAreaLow, severityAreaMedium]
  · norm_num

/-- C6 amended: the estimator never raises — an empty crop yields the
sentinel (Unknown, 0.5); when a loaded classifier raises, the label is
the same as with no classifier at all, and the score is the average of
the heuristic band score and the default confidence 0.5 (hence 0.4,
0.55 or 0.7 per band), not the bare heuristic value. -/
theorem c6_estimator_never_raises (classifier : Option (Option ℚ)) (x y w h H W : ℕ) :
    ((min (y + h) H - min y H) * (min (x + w) W - min x W) = 0 →
      estimate classifier x y w h H W = ("Unknown", 1/2))
    ∧ (estimate (some none) x y w h H W).1 = (estimate none x y w h H W).1
    ∧ (estimate (some none) x y w h H W).2 =
        ((estimate none x y w h H W).2 + 1/2) / 2 := by
  refine ⟨fun hempty => by simp only [estimate, if_pos hempty], ?_, ?_⟩
  · by_cases hempty :
      (min (y + h) H - min y H) * (min (x + w) W - min x W) = 0
    · rw [show estimate (some none) x y w h H W = ("Unknown", 1/2) by
        simp only [estimate, if_pos hempty]]
      rw [show estimate none x y w h H W = ("Unknown", 1/2) by
        simp only [estimate, if_pos hempty]]
    · simp only [estimate, if_neg hempty]
  · by_cases hempty :
      (min (y + h) H - min y H) * (min (x + w) W - min x W) = 0
    · rw [show estimate (some none) x y w h H W = ("Unknown", 1/2) by
        simp only [estimate, if_pos hempty]]
      rw [show estimate none x y w h H W = ("Unknown", 1/2) by
        simp only [estimate, if_pos hempty]]
      norm_num
    · simp only [estimate, if_neg hempty]
      rfl

/-- C6 witness: a zero-width box gives an empty crop and the estimator
returns the sentinel (Unknown, 0.5) instead of raising. -/
theorem c6_estimator_never_raises_witness :
    (min (0 + 10) 500 - min 0 500) * (min (0 + 0) 500 - min 0 500) = 0
    ∧ estimate (some none) 0 0 0 10 500 500 = ("Unknown", 1/2) :=
  ⟨by decide, (c6_estimator_never_raises (some none) 0 0 0 10 500 500).1 (by decide)⟩

/-- C5 counterexample: a connected receiver with a cached fix of
quality 2 and no valid sentence this cycle returns the cached
coordinate with quality 2 — not 0 — and the edge resolver labels that
read local_gps_module, not cached_gps. -/
theorem c5_counterexample :
    (get_coordinates gpsMinSats ⟨true, some (17, 75, "t0"), 2, 0⟩ []).2 =
      (some 17, some 75, some "t0", 2)
    ∧ ((2 : ℤ) ≠ 0)
    ∧ (edgeResolve none (some ⟨some 17, some 75, some "t0", 2⟩) true (0, 0)
        gpsMinQuality).location_source = some "local_gps_module"
    ∧ (some "local_gps_module" : Option String) ≠ some "cached_gps" := by
  refine ⟨rfl, by decide, ?_, by simp⟩
  rfl

/-- C5 amended: when the connected receiver obtains no valid fix in the
current cycle but a cached valid fix exists, get_coordinates returns
the cached coordinate with the quality of the cached fix (caching is
unconditional — no caching-on-no-fix flag is consulted), and the edge
resolver labels such a read local_gps_module with that same quality
whenever it meets the configured minimum; no cached_gps tag exists. -/
theorem c5_cached_fix_degraded (st : GpsState) (cycle : List Sentence)
    (minSats : ℤ) (la lo : ℚ) (t : String)
    (hconn : st.connected = true)
    (hnofix : firstValidFix minSats cycle = none)
    (hcache : st.lastValid = some (la, lo, t)) :
    (get_coordinates minSats st cycle).2 = (some la, some lo, some t, st.last_quality)
    ∧ (gpsMinQuality ≤ st.last_quality →
        edgeResolve none (some ⟨some la, some lo, some t, st.last_quality⟩)
          true (0, 0) gpsMinQuality =
          ⟨la, lo, some "local_gps_module", some st.last_quality⟩) := by
  constructor
  · simp only [get_coordinates, hconn, hnofix, hcache]
    rfl
  · intro hq
    simp only [edgeResolve, if_pos hq]
    simp [pyOr_some_zero]

/-- C5 witness: the concrete state of the counterexample satisfies the
amended statement — cached fix (17, 75) of quality 2, no sentences this
cycle, minimum quality 1. -/
theorem c5_cached_fix_degraded_witness :
    ((⟨true, some (17, 75, "t0"), 2, 0⟩ : GpsState).connected = true
      ∧ firstValidFix gpsMinSats [] = none
      ∧ (⟨true, some (17, 75, "t0"), 2, 0⟩ : GpsState).lastValid = some (17, 75, "t0")
      ∧ gpsMinQuality ≤ (2 : ℤ))
    ∧ edgeResolve none (some ⟨some 17, some 75, some "t0", 2⟩) true (0, 0)
        gpsMinQuality = ⟨17, 75, some "local_gps_module", some 2⟩ :=
  ⟨⟨rfl, rfl, rfl, by decide⟩,
   (c5_cached_fix_degraded ⟨true, some (17, 75, "t0"), 2, 0⟩ [] gpsMinSats
      17 75 "t0" rfl rfl rfl).2 (by decide)⟩

/-! ### Idempotence of greedy NMS -/

/-- The greedy pass only ever drops candidates. -/
theorem nmsGo_sublist (thr : ℚ) (kept l : List NDet) :
    List.Sublist (nmsGo thr kept l) l := by
  induction l generalizing kept with
  | nil => exact List.Sublist.refl []
  | cons d rest ih =>
    rw [nmsGo]
    split
    · exact List.Sublist.cons d (ih kept)
    · exact List.Sublist.cons₂ d (ih (d :: kept))

/-- Everything the greedy pass keeps is threshold-compatible with every
box that was already kept when the pass started. -/
theorem nmsGo_compat_kept (thr : ℚ) (kept l : List NDet) :
    ∀ a ∈ nmsGo thr kept l, ∀ k ∈ kept, iou k.box a.box ≤ thr := by
  induction l generalizing kept with
  | nil => intro a ha; exact absurd ha (List.not_mem_nil a)
  | cons d rest ih =>
    rw [nmsGo]
    split
    · exact ih kept
    · rename_i hno
      intro a ha k hk
      rcases List.mem_cons.mp ha with rfl | ha2
      · have hfalse : ∀ k2 ∈ kept, ¬ thr < iou k2.box a.box := by
          simpa using List.any_eq_false.mp (Bool.not_eq_true _ ▸ (by simpa using hno))
        exact not_lt.mp (hfalse k hk)
      · exact ih (d :: kept) a ha2 k (List.mem_cons_of_mem d hk)

/-- The output of the greedy pass is pairwise threshold-compatible, in
output order. -/
theorem nmsGo_pairwise (thr : ℚ) (kept l : List NDet) :
    (nmsGo thr kept l).Pairwise fun a b => iou a.box b.box ≤ thr := by
  induction l generalizing kept with
  | nil => exact List.Pairwise.nil
  | cons d rest ih =>
    rw [nmsGo]
    split
    · exact ih kept
    · exact List.Pairwise.cons
        (fun b hb => nmsGo_compat_kept thr (d :: kept) rest b hb d
          (List.mem_cons_self d kept))
        (ih (d :: kept))

/-- On a pairwise threshold-compatible list whose members are also
compatible with everything already kept, the greedy pass keeps every
candidate. -/
theorem nmsGo_eq_self (thr : ℚ) (l : List NDet)
    (hl : l.Pairwise fun a b => iou a.box b.box ≤ thr) :
    ∀ kept, (∀ a ∈ l, ∀ k ∈ kept, iou k.box a.box ≤ thr) →
      nmsGo thr kept l = l := by
  induction l with
  | nil => intro kept _; rfl
  | cons d rest ih =>
    intro kept hkept
    have hany : (kept.any fun k => decide (thr < iou k.box d.box)) = false := by
      rw [List.any_eq_false]
      intro k hk
      simpa using not_lt.mpr (hkept d (List.mem_cons_self d rest) k hk)
    rw [nmsGo, if_neg (by simp [hany])]
    congr 1
    refine ih (List.Pairwise.of_cons hl) (d :: kept) ?_
    intro a ha k hk
    rcases List.mem_cons.mp hk with rfl | hk2
    · exact (List.pairwise_cons.mp hl).1 a ha
    · exact hkept a (List.mem_cons_of_mem d ha) k hk2

/-- C7: greedy NMS is idempotent — applying it to its own output
returns that output unchanged (hence the same set of boxes), for every
candidate list and every threshold. -/
theorem c7_nms_idempotent (thr : ℚ) (dets : List NDet) :
    nms thr (nms thr dets) = nms thr dets := by
  unfold nms
  have hsorted : List.Sorted confGE (nmsGo thr [] (dets.insertionSort confGE)) :=
    (List.sorted_insertionSort confGE dets).sublist
      (nmsGo_sublist thr [] (dets.insertionSort confGE))
  rw [List.Sorted.insertionSort_eq hsorted]
  exact nmsGo_eq_self thr _ (nmsGo_pairwise thr [] _) []
    (fun a _ k hk => absurd hk (List.not_mem_nil k))

end Astropath
